import Mathlib

/- Verification of the Owner-Governed Asset Ledger (OGAL) repository:
   a shallow embedding of the Node.js helper scripts
   (scripts/utils.js, scripts/initialize.js, scripts/mint-object.js,
   scripts/update-manifest.js, scripts/migrate-namespace.js,
   scripts/rotate-collection-authority.js) and, where the on-chain Anchor
   program is referenced but its source is not part of the snapshot, a
   model built from the repository documentation and the specification. -/

namespace Ogal

deriving instance DecidableEq for Except

/-- A byte buffer: a list of byte values (each intended to be below 256).
Public keys, seeds and serialized account data are all byte buffers. -/
abbrev Bytes := List Nat

/-- The ASCII byte values of a literal string.  All seed labels and
discriminator preimages in the scripts are plain ASCII. -/
def asciiBytes (s : String) : Bytes := s.data.map Char.toNat

/-- The program id constant OGAL_PROGRAM_ID shared by all scripts
(scripts/utils.js).  The base58 text is kept as an opaque identifying
byte string; only its identity matters for the derivations below. -/
def OGAL_PROGRAM_ID : Bytes := asciiBytes "GwMpopxNkDYsnucBRPf47QSEsEzA3rS1o6ioMX78hgqx"

/-- Buffer.writeBigUInt64LE: the 8-byte little-endian encoding of a u64. -/
def leBytes8 (n : Nat) : Bytes :=
  [n % 256, n / 256 % 256, n / 256 ^ 2 % 256, n / 256 ^ 3 % 256,
   n / 256 ^ 4 % 256, n / 256 ^ 5 % 256, n / 256 ^ 6 % 256, n / 256 ^ 7 % 256]

/-- Model of web3.js PublicKey.findProgramAddressSync.  The real function
maps a seed list and a program id deterministically to a 32-byte address;
we identify the address with an injective byte encoding of the derivation
inputs (length-prefixed seeds followed by the program id).  This preserves
exactly what the claims use: each derived address is a function of its
fixed seed labels plus parent identifiers, and derivations from equal
inputs yield equal addresses. -/
def findProgramAddressSync (seeds : List Bytes) (programId : Bytes) : Bytes :=
  (seeds.map (fun s => leBytes8 s.length ++ s)).flatten ++ leBytes8 programId.length ++ programId

/-- deriveConfigPda (scripts/utils.js): seeds are the label config and the
namespace key. -/
def deriveConfigPda (namespaceKey : Bytes) : Bytes :=
  findProgramAddressSync [asciiBytes "config", namespaceKey] OGAL_PROGRAM_ID

/-- deriveAuthPda (scripts/utils.js): seeds are the label auth and the
config address. -/
def deriveAuthPda (config : Bytes) : Bytes :=
  findProgramAddressSync [asciiBytes "auth", config] OGAL_PROGRAM_ID

/-- MANIFEST_SEED constant (scripts/mint-object.js, update-manifest.js). -/
def MANIFEST_SEED : Bytes := asciiBytes "object_manifest"

/-- MINT_SEED constant (scripts/mint-object.js, update-manifest.js). -/
def MINT_SEED : Bytes := asciiBytes "object_mint"

/-- deriveManifestPda (scripts/mint-object.js, update-manifest.js): seeds
are MANIFEST_SEED, the config address, and the object id serialized with
writeBigUInt64LE. -/
def deriveManifestPda (config : Bytes) (objectId : Nat) : Bytes :=
  findProgramAddressSync [MANIFEST_SEED, config, leBytes8 objectId] OGAL_PROGRAM_ID

/-- deriveObjectMintPda (scripts/mint-object.js, update-manifest.js):
seeds are MINT_SEED and the manifest address. -/
def deriveObjectMintPda (manifest : Bytes) : Bytes :=
  findProgramAddressSync [MINT_SEED, manifest] OGAL_PROGRAM_ID

/- ObjectManifest account layout constants (scripts/utils.js). -/

def ACCOUNT_DISCRIMINATOR_LENGTH : Nat := 8

def PUBKEY_LENGTH : Nat := 32

def U64_LENGTH : Nat := 8

def U8_LENGTH : Nat := 1

def MANIFEST_HASH_LENGTH : Nat := 32

def MANIFEST_MAX_URI_LENGTH : Nat := 128

def MANIFEST_URI_PADDING_LENGTH : Nat := 1

def MANIFEST_URI_LENGTH_FIELD_LENGTH : Nat := 2

/-- MANIFEST_CREATOR_OFFSET (scripts/utils.js): discriminator, config,
object_id, mint, five u8 flag and bump fields, hash, fixed URI field, one
padding byte, and the two-byte URI length field precede the creator. -/
def MANIFEST_CREATOR_OFFSET : Nat :=
  ACCOUNT_DISCRIMINATOR_LENGTH +
    PUBKEY_LENGTH +
    U64_LENGTH +
    PUBKEY_LENGTH +
    U8_LENGTH +
    U8_LENGTH +
    U8_LENGTH +
    U8_LENGTH +
    U8_LENGTH +
    MANIFEST_HASH_LENGTH +
    MANIFEST_MAX_URI_LENGTH +
    MANIFEST_URI_PADDING_LENGTH +
    MANIFEST_URI_LENGTH_FIELD_LENGTH

/-- MANIFEST_CREATOR_END (scripts/utils.js). -/
def MANIFEST_CREATOR_END : Nat := MANIFEST_CREATOR_OFFSET + PUBKEY_LENGTH

/-- deserializeManifestCreator (scripts/utils.js): missing account data
throws, a buffer shorter than MANIFEST_CREATOR_END throws, and otherwise
the creator public key is read from the 32 bytes starting at
MANIFEST_CREATOR_OFFSET. -/
def deserializeManifestCreator (data : Option Bytes) : Except String Bytes :=
  match data with
  | none => .error "Manifest account data is missing."
  | some buffer =>
    if buffer.length < MANIFEST_CREATOR_END then
      .error "Manifest account data is too small to contain the creator field."
    else
      .ok ((buffer.drop MANIFEST_CREATOR_OFFSET).take PUBKEY_LENGTH)

/-- Observable side-effect phases of migrate-namespace.js main after the
namespace equality guard: loading the authority keypair, deriving the four
PDAs, and talking to the RPC endpoint. -/
inductive MigrateEffect where
  | loadKeypair
  | derivePdas
  | network
deriving DecidableEq

/-- A run of migrate-namespace.js main: the ordered side-effect phases it
performed and its outcome. -/
structure MigrateRun where
  effects : List MigrateEffect
  outcome : Except String Unit

/-- migrate-namespace.js main, from the parsed namespace arguments up to
transaction submission.  The RPC interaction is abstracted by sendResult;
effects records the side-effecting phases performed, in order.  The
equality guard runs before the keypair is loaded, before any PDA is
derived, and before any network call. -/
def migrateNamespaceMain (oldNamespace newNamespace : Bytes)
    (sendResult : Except String Unit) : MigrateRun :=
  if oldNamespace = newNamespace then
    ⟨[], .error "The new namespace must differ from the existing namespace."⟩
  else
    ⟨[.loadKeypair, .derivePdas, .network], sendResult⟩

/-- A parsed creator entry (mint-object.js parseCreatorString /
parseCreators): address, royalty share, verified flag.  The keypair path
only matters for signer collection and is omitted. -/
structure Creator where
  address : Bytes
  share : Nat
  verified : Bool
deriving DecidableEq

/-- The share total computed by parseCreators (mint-object.js):
creators.reduce with initial accumulator 0. -/
def totalShare (creators : List Creator) : Nat :=
  creators.foldl (fun sum c => sum + c.share) 0

/-- MAX_CREATOR_LIMIT constant (mint-object.js). -/
def MAX_CREATOR_LIMIT : Nat := 5

/-- The aggregate validation at the end of parseCreators (mint-object.js):
an empty creator list is rejected, a share total other than 100 is
rejected, and otherwise the parsed creator list is returned unchanged. -/
def validateCreatorList (creators : List Creator) : Except String (List Creator) :=
  if creators.length = 0 then
    .error "At least one creator must be provided via --creator or --creators-json."
  else if totalShare creators ≠ 100 then
    .error "Creator shares must total 100."
  else
    .ok creators

/-- ensureManifestCreatorPresent (scripts/utils.js): returns the creator
list unchanged when the manifest creator appears among the creator
addresses and throws otherwise. -/
def ensureManifestCreatorPresent (creators : List Creator) (manifestCreator : Bytes) :
    Except String (List Creator) :=
  if creators.any (fun c => c.address == manifestCreator) then
    .ok creators
  else
    .error "Manifest account was created by an address not provided in the creators list."

/-- The creator checks performed by mint-object.js main on the parsed
creator list and the manifest creator read from (or defaulted for) the
manifest account: the parseCreators aggregate validation, the
MAX_CREATOR_LIMIT cap, then ensureManifestCreatorPresent.  Returns the
creator list that is forwarded into the instruction, unchanged. -/
def mintCreatorChecks (creators : List Creator) (manifestCreator : Bytes) :
    Except String (List Creator) :=
  match validateCreatorList creators with
  | .error e => .error e
  | .ok parsed =>
    if parsed.length > MAX_CREATOR_LIMIT then
      .error "A maximum of 5 creators is supported by the program."
    else
      ensureManifestCreatorPresent parsed manifestCreator

/-- The length of a JavaScript string: the number of UTF-16 code units
(characters below 0x10000 count one unit, astral characters two). -/
def jsLength (s : List Char) : Nat :=
  (s.map (fun c => if c.toNat < 65536 then 1 else 2)).sum

/-- The UTF-8 byte length of a string, for comparison with the length in
characters that the scripts actually check. -/
def utf8Length (s : List Char) : Nat :=
  (s.map (fun c =>
    if c.toNat < 128 then 1
    else if c.toNat < 2048 then 2
    else if c.toNat < 65536 then 3
    else 4)).sum

/-- The human inputs validated by mint-object.js main before any
transaction is built. -/
structure MintCliInputs where
  manifestUri : List Char
  metadataName : List Char
  metadataSymbol : List Char
  sellerFeeBasisPoints : Int
  computeUnitLimit : Int
  computeUnitPrice : Int
  creators : List Creator

/-- The input validation sequence of mint-object.js main, in source
order: the seller-fee range check, the manifest URI emptiness and length
checks, the metadata name emptiness and length checks, the metadata
symbol length check, the compute budget checks, the parseCreators
aggregate validation, and the MAX_CREATOR_LIMIT cap.  All string length
checks use the JavaScript string length (UTF-16 code units).  On success
the parsed creator list is forwarded unchanged. -/
def validateMintObjectInputs (args : MintCliInputs) : Except String (List Creator) :=
  if args.sellerFeeBasisPoints < 0 ∨ 10000 < args.sellerFeeBasisPoints then
    .error "Seller fee basis points must be an integer between 0 and 10000."
  else if jsLength args.manifestUri = 0 then
    .error "Manifest URI cannot be empty."
  else if 128 < jsLength args.manifestUri then
    .error "Manifest URI exceeds the on-chain MAX_URI_LENGTH (128 characters)."
  else if jsLength args.metadataName = 0 then
    .error "Metadata name cannot be empty."
  else if 32 < jsLength args.metadataName then
    .error "Metadata name exceeds the program limit of 32 characters."
  else if 10 < jsLength args.metadataSymbol then
    .error "Metadata symbol exceeds the program limit of 10 characters."
  else if args.computeUnitLimit ≤ 0 then
    .error "Compute unit limit must be a positive integer."
  else if args.computeUnitPrice < 0 then
    .error "Compute unit price must be a non-negative integer."
  else
    match validateCreatorList args.creators with
    | .error e => .error e
    | .ok creators =>
      if creators.length > MAX_CREATOR_LIMIT then
        .error "A maximum of 5 creators is supported by the program."
      else
        .ok creators

/-- The white-space and line-terminator code points recognized by the
ECMAScript String.prototype.trim used in parseManifestHash. -/
def isJsWhitespace (c : Char) : Bool :=
  c.toNat = 9 || c.toNat = 10 || c.toNat = 11 || c.toNat = 12 || c.toNat = 13 ||
  c.toNat = 32 || c.toNat = 160 || c.toNat = 0x1680 ||
  (0x2000 ≤ c.toNat ∧ c.toNat ≤ 0x200a) ||
  c.toNat = 0x2028 || c.toNat = 0x2029 || c.toNat = 0x202f ||
  c.toNat = 0x205f || c.toNat = 0x3000 || c.toNat = 0xfeff

/-- String.prototype.trim: remove leading and trailing white space. -/
def jsTrim (s : List Char) : List Char :=
  ((s.dropWhile isJsWhitespace).reverse.dropWhile isJsWhitespace).reverse

/-- The prefix stripping in parseManifestHash: a leading 0x or 0X is
removed once. -/
def stripHexPrefix (s : List Char) : List Char :=
  match s with
  | c1 :: c2 :: rest =>
    if c1 = '0' ∧ (c2 = 'x' ∨ c2 = 'X') then rest else c1 :: c2 :: rest
  | _ => s

/-- The value of a hexadecimal digit, lower or upper case, as accepted by
the regular expression in parseManifestHash. -/
def hexDigitVal (c : Char) : Option Nat :=
  if 48 ≤ c.toNat ∧ c.toNat ≤ 57 then some (c.toNat - 48)
  else if 97 ≤ c.toNat ∧ c.toNat ≤ 102 then some (c.toNat - 87)
  else if 65 ≤ c.toNat ∧ c.toNat ≤ 70 then some (c.toNat - 55)
  else none

/-- Membership in the character class of the regular expression used by
parseManifestHash (digits and hex letters of either case). -/
def isHexDigit (c : Char) : Bool := (hexDigitVal c).isSome

/-- Buffer.from(cleaned, hex encoding): consecutive digit pairs become
bytes.  After the validation in parseManifestHash the input is always a
non-empty even-length string of hex digits, so the fallback branches are
unreachable there. -/
def hexDecode : List Char → Bytes
  | c1 :: c2 :: rest =>
    match hexDigitVal c1, hexDigitVal c2 with
    | some hi, some lo => (16 * hi + lo) :: hexDecode rest
    | _, _ => []
  | _ => []

/-- parseManifestHash (mint-object.js and update-manifest.js, identical):
an empty input throws, the input is trimmed, one 0x or 0X prefix is
stripped, the remainder must be exactly 64 characters, all hexadecimal,
and is then hex-decoded into the 32-byte hash buffer. -/
def parseManifestHash (input : List Char) : Except String Bytes :=
  if input.length = 0 then
    .error "A manifest hash must be provided."
  else
    let cleaned := stripHexPrefix (jsTrim input)
    if cleaned.length ≠ 64 then
      .error "Manifest hash must be provided as a 32-byte hex string."
    else if ¬ cleaned.all isHexDigit then
      .error "Manifest hash must only contain hexadecimal characters."
    else
      .ok (hexDecode cleaned)

/-- s is a hex rendering of the byte buffer b: the characters pair up and
each pair encodes one byte, each digit in either case. -/
def hexRendering : List Char → Bytes → Bool
  | [], [] => true
  | c1 :: c2 :: s, n :: b =>
    hexDigitVal c1 == some (n / 16) && hexDigitVal c2 == some (n % 16) && hexRendering s b
  | _, _ => false

/- SHA-256, needed because the Anchor instruction discriminators used by
the scripts are defined as the first eight bytes of
sha256 of the preimage global:NAME (canonical) or global::NAME (legacy). -/

/-- The SHA-256 round constants, written in decimal. -/
def sha256K : List Nat :=
  [1116352408, 1899447441, 3049323471, 3921009573, 961987163, 1508970993,
   2453635748, 2870763221, 3624381080, 310598401, 607225278, 1426881987,
   1925078388, 2162078206, 2614888103, 3248222580, 3835390401, 4022224774,
   264347078, 604807628, 770255983, 1249150122, 1555081692, 1996064986,
   2554220882, 2821834349, 2952996808, 3210313671, 3336571891, 3584528711,
   113926993, 338241895, 666307205, 773529912, 1294757372, 1396182291,
   1695183700, 1986661051, 2177026350, 2456956037, 2730485921, 2820302411,
   3259730800, 3345764771, 3516065817, 3600352804, 4094571909, 275423344,
   430227734, 506948616, 659060556, 883997877, 958139571, 1322822218,
   1537002063, 1747873779, 1955562222, 2024104815, 2227730452, 2361852424,
   2428436474, 2756734187, 3204031479, 3329325298]

/-- The SHA-256 initial hash values, written in decimal. -/
def sha256InitH : List Nat :=
  [1779033703, 3144134277, 1013904242, 2773480762, 1359893119, 2600822924,
   528734635, 1541459225]

/-- 32-bit right rotation. -/
def rotr32 (n x : Nat) : Nat := (x >>> n ||| x <<< (32 - n)) % 2 ^ 32

/-- SHA-256 message schedule sigma-0. -/
def sSigma0 (x : Nat) : Nat := rotr32 7 x ^^^ rotr32 18 x ^^^ (x >>> 3)

/-- SHA-256 message schedule sigma-1. -/
def sSigma1 (x : Nat) : Nat := rotr32 17 x ^^^ rotr32 19 x ^^^ (x >>> 10)

/-- SHA-256 compression Sigma-0. -/
def bSigma0 (x : Nat) : Nat := rotr32 2 x ^^^ rotr32 13 x ^^^ rotr32 22 x

/-- SHA-256 compression Sigma-1. -/
def bSigma1 (x : Nat) : Nat := rotr32 6 x ^^^ rotr32 11 x ^^^ rotr32 25 x

/-- Extend a 16-word block to the full 64-word message schedule. -/
def sha256Extend : Nat → List Nat → List Nat
  | 0, w => w
  | fuel + 1, w =>
    let t := (sSigma1 (w.getD (w.length - 2) 0) + w.getD (w.length - 7) 0 +
              sSigma0 (w.getD (w.length - 15) 0) + w.getD (w.length - 16) 0) % 2 ^ 32
    sha256Extend fuel (w ++ [t])

/-- One SHA-256 compression round on the eight-word working state. -/
def sha256Round (st : List Nat) (ki : Nat) (wi : Nat) : List Nat :=
  match st with
  | [a, b, c, d, e, f, g, h] =>
    let ch := (e &&& f) ^^^ ((e ^^^ (2 ^ 32 - 1)) &&& g)
    let maj := (a &&& b) ^^^ (a &&& c) ^^^ (b &&& c)
    let t1 := (h + bSigma1 e + ch + ki + wi) % 2 ^ 32
    let t2 := (bSigma0 a + maj) % 2 ^ 32
    [(t1 + t2) % 2 ^ 32, a, b, c, (d + t1) % 2 ^ 32, e, f, g]
  | other => other

/-- Compress one 16-word block into the running hash state. -/
def sha256Compress (hs : List Nat) (block : List Nat) : List Nat :=
  let w := sha256Extend 48 block
  let final := (sha256K.zip w).foldl (fun st kw => sha256Round st kw.1 kw.2) hs
  (hs.zip final).map (fun p => (p.1 + p.2) % 2 ^ 32)

/-- Big-endian 8-byte encoding (the SHA-256 length field). -/
def beBytes8 (n : Nat) : Bytes :=
  [n / 256 ^ 7 % 256, n / 256 ^ 6 % 256, n / 256 ^ 5 % 256, n / 256 ^ 4 % 256,
   n / 256 ^ 3 % 256, n / 256 ^ 2 % 256, n / 256 % 256, n % 256]

/-- SHA-256 padding: a 0x80 byte, zeros to 56 mod 64, and the bit length. -/
def sha256Pad (msg : Bytes) : Bytes :=
  let zeros := (64 - (msg.length + 9) % 64) % 64
  msg ++ [0x80] ++ List.replicate zeros 0 ++ beBytes8 (8 * msg.length)

/-- Group bytes into big-endian 32-bit words. -/
def bytesToWords : Bytes → List Nat
  | b0 :: b1 :: b2 :: b3 :: rest => (((b0 * 256 + b1) * 256 + b2) * 256 + b3) :: bytesToWords rest
  | _ => []

/-- Split a padded message into 64-byte blocks (fuel-based recursion; the
fuel is the list length, always sufficient). -/
def chunk64Aux : Nat → Bytes → List Bytes
  | 0, _ => []
  | _, [] => []
  | fuel + 1, b :: bs => ((b :: bs).take 64) :: chunk64Aux fuel ((b :: bs).drop 64)

/-- Split a padded message into 64-byte blocks. -/
def chunk64 (bs : Bytes) : List Bytes := chunk64Aux bs.length bs

/-- SHA-256 of a byte message. -/
def sha256 (msg : Bytes) : Bytes :=
  let blocks := chunk64 (sha256Pad msg)
  let hs := blocks.foldl (fun hs block => sha256Compress hs (bytesToWords block)) sha256InitH
  (hs.map (fun w => [w / 2 ^ 24 % 256, w / 2 ^ 16 % 256, w / 2 ^ 8 % 256, w % 256])).flatten

/-- instructionDiscriminator (scripts/utils.js and
rotate-collection-authority.js): the first eight bytes of the sha256 of
global:NAME with a single colon. -/
def instructionDiscriminator (name : String) : Bytes :=
  (sha256 (asciiBytes ("global:" ++ name))).take 8

/-- legacyInstructionDiscriminator (rotate-collection-authority.js): the
first eight bytes of the sha256 of global::NAME with a double colon. -/
def legacyInstructionDiscriminator (name : String) : Bytes :=
  (sha256 (asciiBytes ("global::" ++ name))).take 8

/-- A transaction failure as observed by the rotation script: the error
message, the optional transactionMessage, and the optional simulation
logs recovered by collectLogs. -/
structure TxError where
  message : List Char
  transactionMessage : Option (List Char)
  logs : Option (List (List Char))
deriving DecidableEq

/-- Whether pat occurs as a contiguous substring of s (the semantics of
String.prototype.includes used by isFallbackError). -/
def containsSub (s pat : List Char) : Bool :=
  (List.range (s.length + 1)).any (fun i => pat.isPrefixOf (s.drop i))

/-- Join string pieces with single spaces (Array.prototype.join). -/
def joinSpaces (pieces : List (List Char)) : List Char :=
  List.intercalate [' '] pieces

/-- isFallbackError (rotate-collection-authority.js): collect the error
message, the transaction message and the joined logs, and report whether
the combined text mentions InstructionFallbackNotFound or the raw custom
program error 0x65 under which Anchor surfaces it. -/
def isFallbackError (e : TxError) : Bool :=
  let pieces :=
    (if e.message.length > 0 then [e.message] else []) ++
    (match e.transactionMessage with
     | some t => if t.length > 0 then [t] else []
     | none => []) ++
    (match e.logs with
     | some ls => [joinSpaces ls]
     | none => [])
  let combined := joinSpaces pieces
  containsSub combined "InstructionFallbackNotFound".data ||
  containsSub combined "custom program error: 0x65".data

/-- The outcome of one run of the rotate-collection-authority attempts
loop: the instruction data of every attempt actually submitted, in order,
and the surfaced outcome. -/
structure DispatchResult where
  sentData : List Bytes
  outcome : Except TxError (List Char)

/-- The attempts loop of rotate-collection-authority.js main: the
canonical discriminator is submitted first; if and only if that attempt
fails with a fallback error (per isFallbackError) the loop retries once
with the legacy discriminator; any other failure of the first attempt is
rethrown without a retry, and the legacy attempt result, success or
failure, is final.  Network submission is abstracted by the two result
parameters. -/
def rotateCollectionAuthorityDispatch (newUpdateAuthority : Bytes)
    (canonicalResult legacyResult : Except TxError (List Char)) : DispatchResult :=
  let canonicalData := instructionDiscriminator "rotate_collection_authority" ++ newUpdateAuthority
  let legacyData := legacyInstructionDiscriminator "rotate_collection_authority" ++ newUpdateAuthority
  match canonicalResult with
  | .ok sig => ⟨[canonicalData], .ok sig⟩
  | .error e =>
    if isFallbackError e then
      match legacyResult with
      | .ok sig => ⟨[canonicalData, legacyData], .ok sig⟩
      | .error e2 => ⟨[canonicalData, legacyData], .error e2⟩
    else
      ⟨[canonicalData], .error e⟩

/-- The on-chain ObjectManifest record.  Modelled from the spec: the
Anchor program source (programs/owner_governed_asset_ledger/src/lib.rs)
is not part of this snapshot; fields follow spec section 3 and the
account layout documented in scripts/utils.js. -/
structure ObjectManifest where
  objectId : Nat
  config : Bytes
  mint : Bytes
  creator : Bytes
  manifestHash : Bytes
  metadataUri : Bytes
  isActive : Bool
  minted : Bool
  initialized : Bool
deriving DecidableEq

/-- An SPL token account as far as the ownership gate reads it. -/
structure TokenAccount where
  owner : Bytes
  mint : Bytes
  amount : Nat
deriving DecidableEq

/-- The registry URI cap MAX_URI_LENGTH. -/
def MAX_URI_LENGTH : Nat := 128

/-- The external metadata protocol URI cap. -/
def METADATA_MAX_URI_LENGTH : Nat := 200

/-- Modelled from the spec: the on-chain update_object_manifest handler
(lib.rs is not part of this snapshot).  Per spec section 4.3 and
docs/ogal-protocol/ogal-update-manifest-instruction.md: both URI length
caps are enforced before any write, the manifest must be initialized, the
presented token account must belong to the signer, reference the
manifest's mint and hold at least one token; on success manifest_hash,
metadata_uri and is_active are overwritten in place and the identity
fields object_id, config, mint and creator are untouched. -/
def updateObjectManifest (m : ObjectManifest) (signer : Bytes)
    (tokenAccount : TokenAccount) (newHash : Bytes) (newUri : Bytes)
    (newActive : Bool) : Except String ObjectManifest :=
  if MAX_URI_LENGTH < newUri.length then
    .error "metadata URI exceeds MAX_URI_LENGTH"
  else if METADATA_MAX_URI_LENGTH < newUri.length then
    .error "metadata URI exceeds the metadata protocol URI cap"
  else if ¬ m.initialized then
    .error "manifest is not initialized"
  else if tokenAccount.owner ≠ signer then
    .error "token account is not owned by the signer"
  else if tokenAccount.mint ≠ m.mint then
    .error "token account does not hold the object mint"
  else if tokenAccount.amount = 0 then
    .error "token account holds no tokens"
  else
    .ok ⟨m.objectId, m.config, m.mint, m.creator, newHash, newUri, newActive,
         m.minted, m.initialized⟩

/-- The externally visible actions of one mint_object_nft execution:
account creations and CPIs, in pipeline order. -/
inductive MintEffect where
  | createManifest
  | createMint
  | createTokenAccount
  | createMetadata
  | issueToken
  | createMasterEdition
  | verifyCollection
deriving DecidableEq

/-- The registry state touched by mint_object_nft for one object id. -/
structure MintState where
  configAddr : Bytes
  paused : Bool
  objectCount : Nat
  manifest : Option ObjectManifest
  mintExists : Bool
  tokenAccountExists : Bool
deriving DecidableEq

/-- Modelled from the spec: step 2 of the mint pipeline, manifest ensure,
create if absent, else verify the config and object id match. -/
def ensureObjectManifest (st : MintState) (objectId : Nat) (payer : Bytes)
    (uri hash : Bytes) : Except String (ObjectManifest × List MintEffect) :=
  match st.manifest with
  | none =>
    .ok (⟨objectId, st.configAddr,
          deriveObjectMintPda (deriveManifestPda st.configAddr objectId),
          payer, hash, uri, true, false, false⟩,
         [.createManifest])
  | some m =>
    if m.config ≠ st.configAddr then .error "manifest config mismatch"
    else if m.objectId ≠ objectId then .error "manifest object id mismatch"
    else .ok (m, [])

/-- Modelled from the spec: step 5 of the pipeline, first-mint metadata
creation, gated on the minted flag, with the creator-share total and
manifest-creator membership checks. -/
def firstMintMetadata (m : ObjectManifest) (creators : List Creator) :
    Except String (List MintEffect) :=
  if m.minted then .ok []
  else if totalShare creators ≠ 100 then .error "creator shares must total 100"
  else if creators.all (fun c => c.address ≠ m.creator) then .error "missing manifest creator"
  else .ok [.createMetadata]

/-- Modelled from the spec: the on-chain mint_object_nft pipeline (lib.rs
is not part of this snapshot), per spec section 4.2 and the instruction
breakdown document: pause check; manifest ensure (create if absent, else
verify config and object id); mint ensure (create only if absent);
recipient token account ensure (create only if absent); first-mint
metadata creation with the creator-share and manifest-creator checks,
gated on minted being false; unconditional issuance of one token;
first-mint master edition creation and collection verification, both
gated on minted being false; then bookkeeping that sets minted and
increments the object counter. -/
def mintObjectNft (st : MintState) (objectId : Nat) (payer : Bytes)
    (creators : List Creator) (uri : Bytes) (hash : Bytes) :
    Except String (MintState × List MintEffect) :=
  if st.paused then .error "minting is paused"
  else
    match ensureObjectManifest st objectId payer uri hash with
    | .error e => .error e
    | .ok (m, manifestEffects) =>
      let mintEffects : List MintEffect := if st.mintExists then [] else [.createMint]
      let ataEffects : List MintEffect :=
        if st.tokenAccountExists then [] else [.createTokenAccount]
      match firstMintMetadata m creators with
      | .error e => .error e
      | .ok metaEffects =>
        let tailEffects : List MintEffect :=
          if m.minted then [.issueToken]
          else [.issueToken, .createMasterEdition, .verifyCollection]
        let m2 : ObjectManifest :=
          ⟨m.objectId, m.config, m.mint, m.creator, m.manifestHash, m.metadataUri,
           m.isActive, true, m.initialized⟩
        .ok (⟨st.configAddr, st.paused, st.objectCount + 1, some m2, true, true⟩,
             manifestEffects ++ mintEffects ++ ataEffects ++ metaEffects ++ tailEffects)

/-- Modelled from the spec: the initialize instruction access control
(the ALLOWED_DEPLOYERS check in lib.rs is not part of this snapshot; it
is described in the repository README and deployment guide): the
authority signer must equal the payer or appear in the allow-list,
otherwise the instruction fails before the Configuration and Mint
Authority accounts are created.  On success the two created account
addresses are returned. -/
def initializeInstruction (authority payer : Bytes) (allowedDeployers : List Bytes)
    (namespaceKey : Bytes) : Except String (Bytes × Bytes) :=
  if authority = payer ∨ authority ∈ allowedDeployers then
    .ok (deriveConfigPda namespaceKey, deriveAuthPda (deriveConfigPda namespaceKey))
  else
    .error "The signer is not authorized to deploy the owner-governed asset ledger."

/-- C6: Every account address is a deterministic function of fixed seed
labels plus its parent identifier: for every namespace the config PDA is
derived from the seeds config and namespace; the auth PDA from auth and
the config address; for every object id the manifest PDA from
object_manifest, the config address and the object id as an 8-byte
little-endian u64; the object mint PDA from object_mint and the manifest
address; and two derivations from equal inputs always yield equal
addresses. -/
theorem pda_derivation_spec :
    (∀ ns : Bytes, deriveConfigPda ns =
      findProgramAddressSync [asciiBytes "config", ns] OGAL_PROGRAM_ID) ∧
    (∀ c : Bytes, deriveAuthPda c =
      findProgramAddressSync [asciiBytes "auth", c] OGAL_PROGRAM_ID) ∧
    (∀ (c : Bytes) (objectId : Nat), deriveManifestPda c objectId =
      findProgramAddressSync [asciiBytes "object_manifest", c, leBytes8 objectId]
        OGAL_PROGRAM_ID) ∧
    (∀ m : Bytes, deriveObjectMintPda m =
      findProgramAddressSync [asciiBytes "object_mint", m] OGAL_PROGRAM_ID) ∧
    (∀ ns1 ns2 : Bytes, ns1 = ns2 → deriveConfigPda ns1 = deriveConfigPda ns2) ∧
    (∀ c1 c2 : Bytes, c1 = c2 → deriveAuthPda c1 = deriveAuthPda c2) ∧
    (∀ (c1 c2 : Bytes) (o1 o2 : Nat), c1 = c2 → o1 = o2 →
      deriveManifestPda c1 o1 = deriveManifestPda c2 o2) ∧
    (∀ m1 m2 : Bytes, m1 = m2 → deriveObjectMintPda m1 = deriveObjectMintPda m2) := by
  refine ⟨fun _ => rfl, fun _ => rfl, fun _ _ => rfl, fun _ => rfl, ?_, ?_, ?_, ?_⟩
  · intro ns1 ns2 h
    rw [h]
  · intro c1 c2 h
    rw [h]
  · intro c1 c2 o1 o2 h1 h2
    rw [h1, h2]
  · intro m1 m2 h
    rw [h]

/-- Witness for the C6 theorem at concrete namespace, config, object id
and manifest inputs. -/
theorem pda_derivation_spec_witness :
    deriveConfigPda (asciiBytes "ns") = deriveConfigPda (asciiBytes "ns") ∧
    deriveManifestPda (asciiBytes "cfg") 7 = deriveManifestPda (asciiBytes "cfg") 7 :=
  ⟨pda_derivation_spec.2.2.2.2.1 (asciiBytes "ns") (asciiBytes "ns") rfl,
   pda_derivation_spec.2.2.2.2.2.2.1 (asciiBytes "cfg") (asciiBytes "cfg") 7 7 rfl rfl⟩

/-- C8: the creator offset works out to byte 248 and the creator end to
byte 280; for every buffer of length at least 280 bytes
deserializeManifestCreator returns the 32 bytes starting at offset 248;
missing data throws; and every shorter buffer throws. -/
theorem deserializeManifestCreator_spec :
    MANIFEST_CREATOR_OFFSET = 248 ∧ MANIFEST_CREATOR_END = 280 ∧
    (∀ buffer : Bytes, 280 ≤ buffer.length →
      deserializeManifestCreator (some buffer) = .ok ((buffer.drop 248).take 32)) ∧
    deserializeManifestCreator none = .error "Manifest account data is missing." ∧
    (∀ buffer : Bytes, buffer.length < 280 →
      deserializeManifestCreator (some buffer) =
        .error "Manifest account data is too small to contain the creator field.") := by
  have hEnd : MANIFEST_CREATOR_END = 280 := rfl
  refine ⟨rfl, rfl, ?_, rfl, ?_⟩
  · intro buffer h
    simp only [deserializeManifestCreator, hEnd]
    rw [if_neg (by omega)]
    rfl
  · intro buffer h
    simp only [deserializeManifestCreator, hEnd]
    rw [if_pos (by omega)]

/-- Witness for the C8 theorem at a concrete 288-byte buffer and at a
concrete undersized buffer. -/
theorem deserializeManifestCreator_spec_witness :
    deserializeManifestCreator (some (List.replicate 288 3)) =
      .ok (((List.replicate 288 3).drop 248).take 32) ∧
    deserializeManifestCreator (some [1, 2, 3]) =
      .error "Manifest account data is too small to contain the creator field." :=
  ⟨deserializeManifestCreator_spec.2.2.1 (List.replicate 288 3)
      (by rw [List.length_replicate]; omega),
   deserializeManifestCreator_spec.2.2.2.2 [1, 2, 3] (by decide)⟩

/-- C10: migrate-namespace refuses a no-op migration: whenever the old
namespace equals the new namespace, main throws the dedicated error
before loading keypairs, deriving PDAs, or performing any network call
(the recorded effect list is empty). -/
theorem migrate_namespace_guard_spec :
    ∀ (oldNamespace newNamespace : Bytes) (sendResult : Except String Unit),
      oldNamespace = newNamespace →
      migrateNamespaceMain oldNamespace newNamespace sendResult =
        ⟨[], .error "The new namespace must differ from the existing namespace."⟩ := by
  intro o n s h
  simp [migrateNamespaceMain, h]

/-- Witness for the C10 theorem at a concrete namespace pair. -/
theorem migrate_namespace_guard_spec_witness :
    migrateNamespaceMain (asciiBytes "ns") (asciiBytes "ns") (.ok ()) =
      ⟨[], .error "The new namespace must differ from the existing namespace."⟩ :=
  migrate_namespace_guard_spec (asciiBytes "ns") (asciiBytes "ns") (.ok ()) rfl

/-- C7: initialize fails with the authorization error whenever the
authority is neither the payer nor on the allow-list, creating no
accounts; and when the authority is the payer or allow-listed the
authorization gate passes and the Configuration and Mint Authority
addresses are created. -/
theorem initialize_authorization_spec :
    (∀ (authority payer : Bytes) (allowedDeployers : List Bytes) (ns : Bytes),
      authority ≠ payer → authority ∉ allowedDeployers →
      initializeInstruction authority payer allowedDeployers ns =
        .error "The signer is not authorized to deploy the owner-governed asset ledger.") ∧
    (∀ (authority payer : Bytes) (allowedDeployers : List Bytes) (ns : Bytes),
      authority = payer ∨ authority ∈ allowedDeployers →
      initializeInstruction authority payer allowedDeployers ns =
        .ok (deriveConfigPda ns, deriveAuthPda (deriveConfigPda ns))) := by
  constructor
  · intro a p l ns h1 h2
    unfold initializeInstruction
    rw [if_neg]
    rintro (h | h)
    · exact h1 h
    · exact h2 h
  · intro a p l ns h
    unfold initializeInstruction
    rw [if_pos h]

/-- Witness for the C7 theorem at concrete unauthorized and authorized
inputs. -/
theorem initialize_authorization_spec_witness :
    initializeInstruction (asciiBytes "alice") (asciiBytes "bob") [asciiBytes "carol"]
        (asciiBytes "ns") =
      .error "The signer is not authorized to deploy the owner-governed asset ledger." ∧
    initializeInstruction (asciiBytes "alice") (asciiBytes "alice") [] (asciiBytes "ns") =
      .ok (deriveConfigPda (asciiBytes "ns"),
           deriveAuthPda (deriveConfigPda (asciiBytes "ns"))) :=
  ⟨initialize_authorization_spec.1 (asciiBytes "alice") (asciiBytes "bob")
      [asciiBytes "carol"] (asciiBytes "ns") (by decide) (by decide),
   initialize_authorization_spec.2 (asciiBytes "alice") (asciiBytes "alice") []
      (asciiBytes "ns") (Or.inl rfl)⟩

/-- C2: update_object_manifest fails whenever the presented token account
does not hold the manifest mint or carries zero balance; and whenever it
succeeds the result overwrites exactly manifest_hash, metadata_uri and
is_active while object_id, config, mint and creator are bit-identical to
the original. -/
theorem update_manifest_spec :
    (∀ (m : ObjectManifest) (signer : Bytes) (ta : TokenAccount)
        (newHash newUri : Bytes) (newActive : Bool),
      ta.mint ≠ m.mint ∨ ta.amount = 0 →
      ∃ e, updateObjectManifest m signer ta newHash newUri newActive = .error e) ∧
    (∀ (m : ObjectManifest) (signer : Bytes) (ta : TokenAccount)
        (newHash newUri : Bytes) (newActive : Bool) (m2 : ObjectManifest),
      updateObjectManifest m signer ta newHash newUri newActive = .ok m2 →
      m2.objectId = m.objectId ∧ m2.config = m.config ∧ m2.mint = m.mint ∧
      m2.creator = m.creator ∧ m2.manifestHash = newHash ∧
      m2.metadataUri = newUri ∧ m2.isActive = newActive ∧
      m2.minted = m.minted ∧ m2.initialized = m.initialized) := by
  constructor
  · intro m signer ta nh nu na h
    unfold updateObjectManifest
    split_ifs with h1 h2 h3 h4 h5 h6
    all_goals try exact ⟨_, rfl⟩
    all_goals rcases h with h | h
    all_goals first
      | exact absurd h h5
      | exact absurd h h6
  · intro m signer ta nh nu na m2 h
    unfold updateObjectManifest at h
    split_ifs at h
    injection h with h
    subst h
    exact ⟨rfl, rfl, rfl, rfl, rfl, rfl, rfl, rfl, rfl⟩

/-- Witness for the C2 theorem: a token account for the wrong mint is
rejected, and a successful update leaves the identity fields intact. -/
theorem update_manifest_spec_witness :
    (∃ e, updateObjectManifest
        ⟨1, asciiBytes "cfg", asciiBytes "mintA", asciiBytes "crt", [], [], true, true, true⟩
        (asciiBytes "owner") ⟨asciiBytes "owner", asciiBytes "mintB", 1⟩
        [9] [10] true = .error e) ∧
    (⟨1, asciiBytes "cfg", asciiBytes "mintA", asciiBytes "crt", [9], [10], false, true,
        true⟩ : ObjectManifest).config = asciiBytes "cfg" :=
  ⟨update_manifest_spec.1 _ _ _ _ _ _ (Or.inl (by decide)),
   (update_manifest_spec.2
      ⟨1, asciiBytes "cfg", asciiBytes "mintA", asciiBytes "crt", [], [], true, true, true⟩
      (asciiBytes "owner") ⟨asciiBytes "owner", asciiBytes "mintA", 1⟩
      [9] [10] false _ rfl).2.1⟩

/-- C5: rotate_collection_authority dispatch is versioned: the canonical
discriminator is the first eight bytes of the sha256 of
global:rotate_collection_authority and the legacy discriminator those of
global::rotate_collection_authority; the canonical attempt is submitted
first; the legacy variant is submitted, exactly once and as the only
fallback, if and only if the first attempt fails with a fallback
(unrecognized-instruction) error per isFallbackError; every other failure
of the first attempt is surfaced without a legacy retry. -/
theorem rotate_dispatch_spec :
    instructionDiscriminator "rotate_collection_authority" =
      [127, 21, 205, 57, 21, 40, 136, 55] ∧
    legacyInstructionDiscriminator "rotate_collection_authority" =
      [173, 30, 192, 124, 93, 238, 110, 80] ∧
    (∀ (auth : Bytes) (c l : Except TxError (List Char)),
      (rotateCollectionAuthorityDispatch auth c l).sentData.head? =
        some (instructionDiscriminator "rotate_collection_authority" ++ auth)) ∧
    (∀ (auth : Bytes) (e : TxError) (l : Except TxError (List Char)),
      isFallbackError e = true →
      (rotateCollectionAuthorityDispatch auth (.error e) l).sentData =
        [instructionDiscriminator "rotate_collection_authority" ++ auth,
         legacyInstructionDiscriminator "rotate_collection_authority" ++ auth] ∧
      (rotateCollectionAuthorityDispatch auth (.error e) l).outcome = l) ∧
    (∀ (auth : Bytes) (sig : List Char) (l : Except TxError (List Char)),
      rotateCollectionAuthorityDispatch auth (.ok sig) l =
        ⟨[instructionDiscriminator "rotate_collection_authority" ++ auth], .ok sig⟩) ∧
    (∀ (auth : Bytes) (e : TxError) (l : Except TxError (List Char)),
      isFallbackError e = false →
      rotateCollectionAuthorityDispatch auth (.error e) l =
        ⟨[instructionDiscriminator "rotate_collection_authority" ++ auth], .error e⟩) := by
  refine ⟨by decide, by decide, ?_, ?_, ?_, ?_⟩
  · intro auth c l
    cases c with
    | ok sig => rfl
    | error e =>
      by_cases hf : isFallbackError e
      · cases l with
        | ok sig => simp [rotateCollectionAuthorityDispatch, hf]
        | error e2 => simp [rotateCollectionAuthorityDispatch, hf]
      · simp [rotateCollectionAuthorityDispatch, hf]
  · intro auth e l hf
    cases l with
    | ok sig => exact ⟨by simp [rotateCollectionAuthorityDispatch, hf], by simp [rotateCollectionAuthorityDispatch, hf]⟩
    | error e2 => exact ⟨by simp [rotateCollectionAuthorityDispatch, hf], by simp [rotateCollectionAuthorityDispatch, hf]⟩
  · intro auth sig l
    rfl
  · intro auth e l hf
    simp [rotateCollectionAuthorityDispatch, hf]

/-- Witness for the C5 theorem: a concrete fallback failure of the
canonical attempt triggers exactly one legacy retry, and a concrete
non-fallback failure is surfaced with a single attempt. -/
theorem rotate_dispatch_spec_witness :
    (rotateCollectionAuthorityDispatch [1]
        (.error ⟨"custom program error: 0x65".data, none, none⟩)
        (.ok "sig".data)).sentData =
      [instructionDiscriminator "rotate_collection_authority" ++ [1],
       legacyInstructionDiscriminator "rotate_collection_authority" ++ [1]] ∧
    rotateCollectionAuthorityDispatch [1]
        (.error ⟨"some other failure".data, none, none⟩) (.ok "sig".data) =
      ⟨[instructionDiscriminator "rotate_collection_authority" ++ [1]],
       .error ⟨"some other failure".data, none, none⟩⟩ :=
  ⟨(rotate_dispatch_spec.2.2.2.1 [1] ⟨"custom program error: 0x65".data, none, none⟩
      (.ok "sig".data) (by decide)).1,
   rotate_dispatch_spec.2.2.2.2.2 [1] ⟨"some other failure".data, none, none⟩
      (.ok "sig".data) (by decide)⟩

/-- Helper: a creator list whose shares total 100 passes the
parseCreators aggregate validation unchanged. -/
theorem validateCreatorList_ok (creators : List Creator)
    (htotal : totalShare creators = 100) :
    validateCreatorList creators = .ok creators := by
  have hne : ¬ creators.length = 0 := by
    intro h0
    rw [List.length_eq_zero] at h0
    subst h0
    simp [totalShare] at htotal
  unfold validateCreatorList
  rw [if_neg hne, if_neg (not_not_intro htotal)]

/-- Helper: the parseCreators aggregate validation can only return the
creator list it was given. -/
theorem validateCreatorList_ok_inv (creators parsed : List Creator)
    (h : validateCreatorList creators = .ok parsed) : parsed = creators := by
  unfold validateCreatorList at h
  split_ifs at h
  injection h with h
  exact h.symm

/-- C3: the mint creator pipeline fails whenever the creator shares do
not total exactly 100; it fails whenever the manifest creator is absent
from the creator list; and with shares totalling 100, the manifest
creator present, and the creator count within the cap, both checks pass
and the creator list is forwarded unchanged. -/
theorem creator_invariant_spec :
    (∀ (creators : List Creator) (manifestCreator : Bytes),
      totalShare creators ≠ 100 →
      ∃ e, mintCreatorChecks creators manifestCreator = .error e) ∧
    (∀ (creators : List Creator) (manifestCreator : Bytes),
      (∀ c ∈ creators, c.address ≠ manifestCreator) →
      ∃ e, mintCreatorChecks creators manifestCreator = .error e) ∧
    (∀ (creators : List Creator) (manifestCreator : Bytes),
      totalShare creators = 100 →
      (∃ c ∈ creators, c.address = manifestCreator) →
      creators.length ≤ MAX_CREATOR_LIMIT →
      mintCreatorChecks creators manifestCreator = .ok creators) := by
  have hvalidOk : ∀ creators : List Creator, totalShare creators = 100 →
      validateCreatorList creators = .ok creators := by
    intro creators htotal
    have hne : ¬ creators.length = 0 := by
      intro h0
      rw [List.length_eq_zero] at h0
      subst h0
      simp [totalShare] at htotal
    unfold validateCreatorList
    rw [if_neg hne, if_neg (not_not_intro htotal)]
  have herr : ∀ (creators : List Creator) (mc : Bytes), totalShare creators ≠ 100 →
      ∃ e, mintCreatorChecks creators mc = .error e := by
    intro creators mc h
    have hval : ∃ e, validateCreatorList creators = .error e := by
      unfold validateCreatorList
      split_ifs with h1
      · exact ⟨_, rfl⟩
      · exact ⟨_, rfl⟩
    obtain ⟨e, he⟩ := hval
    exact ⟨e, by simp [mintCreatorChecks, he]⟩
  refine ⟨fun creators mc h => herr creators mc h, ?_, ?_⟩
  · intro creators mc h
    by_cases htotal : totalShare creators = 100
    · have hok := hvalidOk creators htotal
      simp only [mintCreatorChecks, hok]
      by_cases hlen : creators.length > MAX_CREATOR_LIMIT
      · rw [if_pos hlen]
        exact ⟨_, rfl⟩
      · rw [if_neg hlen]
        unfold ensureManifestCreatorPresent
        rw [if_neg]
        · exact ⟨_, rfl⟩
        · simp only [List.any_eq_true, beq_iff_eq, not_exists, not_and]
          intro c hc
          exact h c hc
    · exact herr creators mc htotal
  · intro creators mc htotal hmem hlen
    have hok := hvalidOk creators htotal
    simp only [mintCreatorChecks, hok]
    rw [if_neg (Nat.not_lt.mpr hlen)]
    have hany : creators.any (fun c => c.address == mc) = true := by
      simp only [List.any_eq_true, beq_iff_eq]
      obtain ⟨c, hc, hq⟩ := hmem
      exact ⟨c, hc, hq⟩
    unfold ensureManifestCreatorPresent
    rw [if_pos hany]

/-- Witness for the C3 theorem: a concrete single-creator list with share
100 containing the manifest creator passes both checks unchanged, and a
concrete list with shares totalling 90 is rejected. -/
theorem creator_invariant_spec_witness :
    mintCreatorChecks [⟨asciiBytes "A", 100, true⟩] (asciiBytes "A") =
      .ok [⟨asciiBytes "A", 100, true⟩] ∧
    (∃ e, mintCreatorChecks [⟨asciiBytes "A", 90, true⟩] (asciiBytes "A") = .error e) :=
  ⟨creator_invariant_spec.2.2 [⟨asciiBytes "A", 100, true⟩] (asciiBytes "A")
      (by decide) ⟨⟨asciiBytes "A", 100, true⟩, by simp, rfl⟩ (by decide),
   creator_invariant_spec.1 [⟨asciiBytes "A", 90, true⟩] (asciiBytes "A") (by decide)⟩

/-- C1: for every state whose manifest has the minted flag already true
and whose mint account already exists, a repeated mint_object_nft call
for the same object id performs none of metadata creation, master
edition creation or collection verification, creates no second mint,
and leaves every manifest field unchanged. -/
theorem mint_idempotence_spec :
    ∀ (st : MintState) (m : ObjectManifest) (payer : Bytes)
      (creators : List Creator) (uri hash : Bytes),
      st.manifest = some m → m.minted = true → st.mintExists = true →
      st.paused = false → m.config = st.configAddr →
      ∃ st2 effects,
        mintObjectNft st m.objectId payer creators uri hash = .ok (st2, effects) ∧
        st2.manifest = some m ∧
        MintEffect.createMint ∉ effects ∧
        MintEffect.createMetadata ∉ effects ∧
        MintEffect.createMasterEdition ∉ effects ∧
        MintEffect.verifyCollection ∉ effects := by
  intro st m payer creators uri hash hm hminted hmint hpaused hconfig
  have hmanifest : ensureObjectManifest st m.objectId payer uri hash = .ok (m, []) := by
    simp only [ensureObjectManifest, hm]
    rw [if_neg (not_not_intro hconfig), if_neg (not_not_intro rfl)]
  have hmeta : firstMintMetadata m creators = .ok [] := by
    unfold firstMintMetadata
    rw [if_pos hminted]
  have hm2 : (⟨m.objectId, m.config, m.mint, m.creator, m.manifestHash, m.metadataUri,
      m.isActive, true, m.initialized⟩ : ObjectManifest) = m := by
    cases m
    simp_all
  refine ⟨⟨st.configAddr, st.paused, st.objectCount + 1, some m, true, true⟩,
    (if st.tokenAccountExists then [] else [MintEffect.createTokenAccount]) ++
      [MintEffect.issueToken], ?_, rfl, ?_, ?_, ?_, ?_⟩
  · unfold mintObjectNft
    rw [hpaused]
    simp only [Bool.false_eq_true, if_false, hmanifest, hmeta, hmint, hminted, hm2,
      if_true, List.nil_append, List.append_nil]
  · cases hta : st.tokenAccountExists <;> simp [hta]
  · cases hta : st.tokenAccountExists <;> simp [hta]
  · cases hta : st.tokenAccountExists <;> simp [hta]
  · cases hta : st.tokenAccountExists <;> simp [hta]

/-- Witness for the C1 theorem at a concrete already-minted state. -/
theorem mint_idempotence_spec_witness :
    ∃ st2 effects,
      mintObjectNft
          ⟨asciiBytes "cfg", false, 5,
           some ⟨7, asciiBytes "cfg", asciiBytes "mint", asciiBytes "crt",
                 [1], [2], true, true, true⟩,
           true, true⟩
          7 (asciiBytes "payer") [] [3] [4] = .ok (st2, effects) ∧
      st2.manifest =
        some ⟨7, asciiBytes "cfg", asciiBytes "mint", asciiBytes "crt",
              [1], [2], true, true, true⟩ ∧
      MintEffect.createMint ∉ effects ∧
      MintEffect.createMetadata ∉ effects ∧
      MintEffect.createMasterEdition ∉ effects ∧
      MintEffect.verifyCollection ∉ effects :=
  mint_idempotence_spec
    ⟨asciiBytes "cfg", false, 5,
     some ⟨7, asciiBytes "cfg", asciiBytes "mint", asciiBytes "crt",
           [1], [2], true, true, true⟩,
     true, true⟩
    ⟨7, asciiBytes "cfg", asciiBytes "mint", asciiBytes "crt", [1], [2], true, true, true⟩
    (asciiBytes "payer") [] [3] [4] rfl rfl rfl rfl rfl

set_option maxRecDepth 4000 in
/-- C4 counterexample: the claim says validation rejects a manifest URI
longer than 128 bytes, but the script checks the JavaScript string length
in characters: a URI of 128 two-byte characters occupies 256 UTF-8 bytes
yet passes every validation check, so no rejection happens. -/
theorem mint_limit_validation_counterexample :
    utf8Length (List.replicate 128 'é') = 256 ∧
    validateMintObjectInputs
        ⟨List.replicate 128 'é', "Name".data, "S".data, 500, 400000, 0,
         [⟨asciiBytes "A", 100, false⟩]⟩ =
      .ok [⟨asciiBytes "A", 100, false⟩] := by
  constructor
  · rw [utf8Length, List.map_replicate, List.sum_replicate]
    decide
  · decide

/-- C4 (amended): validation, before any transaction is built, rejects a
manifest URI longer than 128 characters, a metadata name longer than 32
characters, a metadata symbol longer than 10 characters, more than 5
creators, or seller fee basis points outside the 0 to 10000 range, where
the lengths are JavaScript string lengths in UTF-16 code units; inputs
within all five limits (and passing the orthogonal non-emptiness,
compute-budget and share-total checks) pass validation with the creator
list forwarded unchanged.  The first part states the rejections as the
contrapositive: any accepted input is within all five limits. -/
theorem mint_limit_validation_spec :
    (∀ (args : MintCliInputs) (creators : List Creator),
      validateMintObjectInputs args = .ok creators →
      0 ≤ args.sellerFeeBasisPoints ∧ args.sellerFeeBasisPoints ≤ 10000 ∧
      jsLength args.manifestUri ≤ 128 ∧ jsLength args.metadataName ≤ 32 ∧
      jsLength args.metadataSymbol ≤ 10 ∧ args.creators.length ≤ MAX_CREATOR_LIMIT ∧
      creators = args.creators) ∧
    (∀ args : MintCliInputs,
      0 ≤ args.sellerFeeBasisPoints → args.sellerFeeBasisPoints ≤ 10000 →
      0 < jsLength args.manifestUri → jsLength args.manifestUri ≤ 128 →
      0 < jsLength args.metadataName → jsLength args.metadataName ≤ 32 →
      jsLength args.metadataSymbol ≤ 10 →
      0 < args.computeUnitLimit → 0 ≤ args.computeUnitPrice →
      totalShare args.creators = 100 → args.creators.length ≤ MAX_CREATOR_LIMIT →
      validateMintObjectInputs args = .ok args.creators) := by
  constructor
  · intro args creators h
    unfold validateMintObjectInputs at h
    split_ifs at h with h1 h2 h3 h4 h5 h6 h7 h8
    rcases hval : validateCreatorList args.creators with e | parsed
    · rw [hval] at h
      exact Except.noConfusion h
    · have hparsed := validateCreatorList_ok_inv args.creators parsed hval
      subst hparsed
      rw [hval] at h
      simp only at h
      split_ifs at h with h9
      injection h with h
      subst h
      push_neg at h1
      refine ⟨h1.1, h1.2, ?_, ?_, ?_, ?_, rfl⟩
      · exact Nat.not_lt.mp h3
      · exact Nat.not_lt.mp h5
      · exact Nat.not_lt.mp h6
      · exact Nat.not_lt.mp h9
  · intro args h1 h2 h3 h4 h5 h6 h7 h8 h9 h10 h11
    unfold validateMintObjectInputs
    rw [if_neg (by rintro (hc | hc) <;> omega)]
    rw [if_neg (by omega)]
    rw [if_neg (by omega)]
    rw [if_neg (by omega)]
    rw [if_neg (by omega)]
    rw [if_neg (by omega)]
    rw [if_neg (by omega)]
    rw [if_neg (by omega)]
    simp only [validateCreatorList_ok args.creators h10]
    rw [if_neg (Nat.not_lt.mpr h11)]

/-- Witness for the amended C4 theorem at a concrete in-limits input. -/
theorem mint_limit_validation_spec_witness :
    validateMintObjectInputs
        ⟨"https://example.org/a.json".data, "Name".data, "S".data, 500, 400000, 0,
         [⟨asciiBytes "A", 100, false⟩]⟩ =
      .ok [⟨asciiBytes "A", 100, false⟩] :=
  mint_limit_validation_spec.2
    ⟨"https://example.org/a.json".data, "Name".data, "S".data, 500, 400000, 0,
     [⟨asciiBytes "A", 100, false⟩]⟩
    (by decide) (by decide) (by decide) (by decide) (by decide) (by decide)
    (by decide) (by decide) (by decide) (by decide) (by decide)

/-- Helper: dropWhile skips a prefix whose elements all satisfy the
predicate. -/
theorem dropWhile_append_all {α : Type} (p : α → Bool) (xs ys : List α)
    (h : ∀ a ∈ xs, p a = true) : (xs ++ ys).dropWhile p = ys.dropWhile p := by
  induction xs with
  | nil => rfl
  | cons x xs ih =>
    rw [List.cons_append, List.dropWhile_cons, if_pos (h x (List.mem_cons_self x xs))]
    exact ih fun a ha => h a (List.mem_cons_of_mem x ha)

/-- Helper: dropWhile stops at an element that fails the predicate. -/
theorem dropWhile_cons_false {α : Type} (p : α → Bool) (x : α) (xs : List α)
    (h : p x = false) : (x :: xs).dropWhile p = x :: xs := by
  rw [List.dropWhile_cons, if_neg (by simp [h])]

/-- Helper: trimming removes exactly the surrounding whitespace when the
kernel of the string starts and ends with non-whitespace. -/
theorem jsTrim_sandwich (ws1 ws2 m1 m2 : List Char) (c d : Char)
    (h1 : ∀ a ∈ ws1, isJsWhitespace a = true)
    (h2 : ∀ a ∈ ws2, isJsWhitespace a = true)
    (hc : isJsWhitespace c = false) (hd : isJsWhitespace d = false)
    (hrev : (c :: m1).reverse = d :: m2) :
    jsTrim (ws1 ++ ((c :: m1) ++ ws2)) = c :: m1 := by
  unfold jsTrim
  rw [dropWhile_append_all _ ws1 _ h1]
  rw [List.cons_append, dropWhile_cons_false _ _ _ hc, ← List.cons_append]
  rw [List.reverse_append, hrev]
  rw [dropWhile_append_all _ _ _ fun a ha => h2 a (List.mem_reverse.mp ha)]
  rw [dropWhile_cons_false _ _ _ hd]
  rw [← hrev, List.reverse_reverse]

/-- Helper: a hex rendering is twice as long as the byte buffer, consists
of hex digits only, and hex-decodes back to the byte buffer. -/
theorem hexRendering_facts : ∀ (b : Bytes) (s : List Char),
    hexRendering s b = true →
    s.length = 2 * b.length ∧ (∀ c ∈ s, isHexDigit c = true) ∧ hexDecode s = b := by
  intro b
  induction b with
  | nil =>
    intro s h
    match s with
    | [] => exact ⟨rfl, by simp, rfl⟩
    | [c] => simp [hexRendering] at h
    | c1 :: c2 :: t => simp [hexRendering] at h
  | cons n b ih =>
    intro s h
    match s with
    | [] => simp [hexRendering] at h
    | [c] => simp [hexRendering] at h
    | c1 :: c2 :: t =>
      simp only [hexRendering, Bool.and_eq_true, beq_iff_eq] at h
      obtain ⟨⟨hc1, hc2⟩, hrec⟩ := h
      obtain ⟨hlen, hhex, hdec⟩ := ih t hrec
      refine ⟨?_, ?_, ?_⟩
      · simp only [List.length_cons, hlen]
        omega
      · intro c hc
        simp only [List.mem_cons] at hc
        rcases hc with rfl | rfl | hc
        · rw [isHexDigit, hc1]
          rfl
        · rw [isHexDigit, hc2]
          rfl
        · exact hhex c hc
      · simp only [hexDecode, hc1, hc2]
        rw [hdec]
        congr 1
        omega

/-- Helper: a hex digit is never JavaScript whitespace. -/
theorem hex_not_ws (c : Char) (h : isHexDigit c = true) :
    isJsWhitespace c = false := by
  have hb : (48 ≤ c.toNat ∧ c.toNat ≤ 57) ∨ (97 ≤ c.toNat ∧ c.toNat ≤ 102) ∨
      (65 ≤ c.toNat ∧ c.toNat ≤ 70) := by
    unfold isHexDigit hexDigitVal at h
    split_ifs at h with h1 h2 h3
    · exact Or.inl h1
    · exact Or.inr (Or.inl h2)
    · exact Or.inr (Or.inr h3)
    · simp at h
  unfold isJsWhitespace
  simp only [Bool.or_eq_false_iff, decide_eq_false_iff_not]
  omega

/-- Helper: stripHexPrefix leaves a pure hex-digit string unchanged. -/
theorem stripHexPrefix_hex (s : List Char) (h : ∀ c ∈ s, isHexDigit c = true) :
    stripHexPrefix s = s := by
  rcases s with _ | ⟨c1, _ | ⟨c2, t⟩⟩
  · rfl
  · rfl
  · show (if c1 = '0' ∧ (c2 = 'x' ∨ c2 = 'X') then t else c1 :: c2 :: t) = c1 :: c2 :: t
    rw [if_neg]
    rintro ⟨rfl, hx⟩
    rcases hx with rfl | rfl
    · exact absurd (h 'x' (by simp)) (by decide)
    · exact absurd (h 'X' (by simp)) (by decide)

/-- Helper: stripHexPrefix removes a lower-case hex prefix. -/
theorem stripHexPrefix_0x (s : List Char) :
    stripHexPrefix ('0' :: 'x' :: s) = s := by
  show (if ('0' : Char) = '0' ∧ (('x' : Char) = 'x' ∨ ('x' : Char) = 'X') then s
        else '0' :: 'x' :: s) = s
  rw [if_pos ⟨rfl, Or.inl rfl⟩]

/-- Helper: stripHexPrefix removes an upper-case hex prefix. -/
theorem stripHexPrefix_0X (s : List Char) :
    stripHexPrefix ('0' :: 'X' :: s) = s := by
  show (if ('0' : Char) = '0' ∧ (('X' : Char) = 'x' ∨ ('X' : Char) = 'X') then s
        else '0' :: 'X' :: s) = s
  rw [if_pos ⟨rfl, Or.inr rfl⟩]

/-- C9: parseManifestHash round-trips hex encoding: for every 32-byte
buffer and every hex rendering of it, digit by digit in either case, with
or without a 0x or 0X prefix and with surrounding whitespace, the parser
returns exactly that buffer; and it throws for every input whose trimmed,
de-prefixed form is not exactly 64 hexadecimal characters. -/
theorem parseManifestHash_spec :
    (∀ (b : Bytes) (s ws1 ws2 pre : List Char),
      b.length = 32 → hexRendering s b = true →
      (∀ c ∈ ws1, isJsWhitespace c = true) →
      (∀ c ∈ ws2, isJsWhitespace c = true) →
      (pre = [] ∨ pre = ['0', 'x'] ∨ pre = ['0', 'X']) →
      parseManifestHash (ws1 ++ (pre ++ s) ++ ws2) = .ok b) ∧
    (∀ input : List Char,
      ¬ ((stripHexPrefix (jsTrim input)).length = 64 ∧
         (stripHexPrefix (jsTrim input)).all isHexDigit = true) →
      ∃ e, parseManifestHash input = .error e) := by
  constructor
  · intro b s ws1 ws2 pre hb hrend hws1 hws2 hpre
    obtain ⟨hslen, hshex, hsdec⟩ := hexRendering_facts b s hrend
    rw [hb] at hslen
    norm_num at hslen
    rcases s with _ | ⟨c, srest⟩
    · simp at hslen
    rcases hsrev : (c :: srest).reverse with _ | ⟨d, m2⟩
    · have := congrArg List.length hsrev
      simp at this
    have hdmem : d ∈ c :: srest := by
      rw [← List.mem_reverse, hsrev]
      exact List.mem_cons_self d m2
    have hchex := hshex c (List.mem_cons_self c srest)
    have hdws := hex_not_ws d (hshex d hdmem)
    have hcws := hex_not_ws c hchex
    have hall : (c :: srest).all isHexDigit = true := List.all_eq_true.mpr hshex
    have key : stripHexPrefix (jsTrim (ws1 ++ (pre ++ (c :: srest)) ++ ws2)) =
        c :: srest := by
      rcases hpre with rfl | rfl | rfl
      · rw [List.nil_append, List.append_assoc]
        rw [jsTrim_sandwich ws1 ws2 srest m2 c d hws1 hws2 hcws hdws hsrev]
        exact stripHexPrefix_hex _ hshex
      · have hrev2 : ('0' :: 'x' :: c :: srest).reverse = d :: (m2 ++ ['x', '0']) := by
          rw [List.reverse_cons, List.reverse_cons, hsrev]
          simp
        rw [show (['0', 'x'] ++ (c :: srest) : List Char) = '0' :: 'x' :: c :: srest
          from rfl]
        rw [List.append_assoc]
        rw [jsTrim_sandwich ws1 ws2 ('x' :: c :: srest) (m2 ++ ['x', '0']) '0' d hws1
          hws2 (by decide) hdws hrev2]
        exact stripHexPrefix_0x _
      · have hrev2 : ('0' :: 'X' :: c :: srest).reverse = d :: (m2 ++ ['X', '0']) := by
          rw [List.reverse_cons, List.reverse_cons, hsrev]
          simp
        rw [show (['0', 'X'] ++ (c :: srest) : List Char) = '0' :: 'X' :: c :: srest
          from rfl]
        rw [List.append_assoc]
        rw [jsTrim_sandwich ws1 ws2 ('X' :: c :: srest) (m2 ++ ['X', '0']) '0' d hws1
          hws2 (by decide) hdws hrev2]
        exact stripHexPrefix_0X _
    have hne : (ws1 ++ (pre ++ (c :: srest)) ++ ws2).length ≠ 0 := by
      simp [List.length_append]
    unfold parseManifestHash
    rw [if_neg hne]
    simp only [key]
    rw [if_neg (not_not_intro hslen)]
    rw [if_neg (not_not_intro hall)]
    rw [hsdec]
  · intro input hbad
    by_cases hin : input.length = 0
    · refine ⟨"A manifest hash must be provided.", ?_⟩
      unfold parseManifestHash
      rw [if_pos hin]
    · have heval : parseManifestHash input =
          (if (stripHexPrefix (jsTrim input)).length ≠ 64 then
            Except.error "Manifest hash must be provided as a 32-byte hex string."
          else if ¬ (stripHexPrefix (jsTrim input)).all isHexDigit then
            Except.error "Manifest hash must only contain hexadecimal characters."
          else Except.ok (hexDecode (stripHexPrefix (jsTrim input)))) := by
        unfold parseManifestHash
        rw [if_neg hin]
      by_cases hlen : (stripHexPrefix (jsTrim input)).length = 64
      · have hallb : ¬ (stripHexPrefix (jsTrim input)).all isHexDigit = true := by
          intro hc
          exact hbad ⟨hlen, hc⟩
        refine ⟨"Manifest hash must only contain hexadecimal characters.", ?_⟩
        rw [heval, if_neg (not_not_intro hlen), if_pos hallb]
      · refine ⟨"Manifest hash must be provided as a 32-byte hex string.", ?_⟩
        rw [heval, if_pos hlen]

set_option maxRecDepth 4000 in
/-- Witness for the C9 theorem: a concrete lower-case rendering of the
byte 171 repeated 32 times, with a 0x prefix, one leading space and one
trailing newline, parses back to the byte buffer. -/
theorem parseManifestHash_spec_witness :
    parseManifestHash
        ([' '] ++ (['0', 'x'] ++ (List.replicate 32 ['a', 'b']).flatten) ++ ['\n']) =
      .ok (List.replicate 32 171) :=
  parseManifestHash_spec.1 (List.replicate 32 171)
    (List.replicate 32 ['a', 'b']).flatten [' '] ['\n'] ['0', 'x']
    (by decide) (by decide) (by decide) (by decide) (Or.inr (Or.inl rfl))

end Ogal
